import Mathlib

/-!
Shallow embedding of the `framebuffer` crate (src/framebuffer/src/lib.rs):
colors with alpha compositing, the two concrete buffers (`FrameBuffer`,
`StencilBuffer`), the generic `Canvas` drawing surface, and the PPM
serialization path.

Modelling conventions:
* `u8`/`u16`/`u32` values are `Nat`; arithmetic that cannot overflow at the
  Rust width (e.g. `a*(255-alpha) + b*alpha ≤ 255*255 < 2^16` in `u16`) is
  written without an explicit modulus.
* `i64` coordinates are `Int`.
* `Vec<u8>` is `List Nat`; a Rust indexing expression `v[i]` is a checked
  access, and an out-of-range access (a Rust panic) is `Except.error ()`.
* Rust mutation is explicit state passing.
-/

namespace Generative

/-- Equality on `Except` results is decidable when it is on both components. -/
instance exceptDecEq {ε α : Type} [DecidableEq ε] [DecidableEq α] :
    DecidableEq (Except ε α) := fun a b =>
  match a, b with
  | .ok x, .ok y =>
    if h : x = y then .isTrue (by rw [h])
    else .isFalse (fun he => h (Except.ok.inj he))
  | .error x, .error y =>
    if h : x = y then .isTrue (by rw [h])
    else .isFalse (fun he => h (Except.error.inj he))
  | .ok _, .error _ => .isFalse (fun he => Except.noConfusion he)
  | .error _, .ok _ => .isFalse (fun he => Except.noConfusion he)

/-- A simple RGB color with transparency (`Color` in the source). -/
structure Color where
  r : Nat
  g : Nat
  b : Nat
  alpha : Nat
deriving DecidableEq

/-- `Color::rgb`: a color from R, G and B components, alpha 255. -/
def Color.rgb (r g b : Nat) : Color :=
  { r := r, g := g, b := b, alpha := 255 }

/-- `Color::rgba`: a color from R, G, B and transparency components. -/
def Color.rgba (r g b alpha : Nat) : Color :=
  { r := r, g := g, b := b, alpha := alpha }

/-- `Color::blend`: alpha blending of `other` over `self`, keeping
`self.alpha`.  Each channel is `(self*(255-other.alpha) + other*other.alpha)/255`
with truncating division, computed in `u16` (no overflow for byte inputs). -/
def Color.blend (self other : Color) : Color :=
  let base_blend := 255 - other.alpha
  let blend := fun (a b : Nat) => (a * base_blend + b * other.alpha) / 255
  Color.rgba (blend self.r other.r) (blend self.g other.g) (blend self.b other.b)
    self.alpha

/-- `FrameBuffer`: a flat RGB byte buffer (3 bytes per pixel, row-major). -/
structure FrameBuffer where
  pixels : List Nat
  width : Nat
  height : Nat
deriving DecidableEq

/-- `FrameBuffer::new`: a `width*height*3`-byte buffer of zeros (black). -/
def FrameBuffer.new (width height : Nat) : FrameBuffer :=
  { pixels := List.replicate (width * height * 3) 0, width := width, height := height }

/-- `FrameBuffer::get_point`, exactly as written in the source: the second
guard tests `x >= self.height` (not `y`), and the subsequent indexing
panics (`.error ()`) when the offset is out of range. -/
def FrameBuffer.get_point (fb : FrameBuffer) (x y : Int) : Except Unit (Option Color) :=
  if x < 0 ∨ x ≥ (fb.width : Int) then .ok none
  else if y < 0 ∨ x ≥ (fb.height : Int) then .ok none
  else
    let offset := (y * (fb.width : Int) * 3 + x * 3).toNat
    match fb.pixels[offset]?, fb.pixels[offset + 1]?, fb.pixels[offset + 2]? with
    | some pr, some pg, some pb => .ok (some (Color.rgb pr pg pb))
    | _, _, _ => .error ()

/-- `FrameBuffer::put_point`: out-of-bounds and alpha-0 writes are no-ops;
alpha-255 writes overwrite the three channel bytes; other alphas composite
with the stored pixel using the blend formula.  Out-of-range indexing is a
panic (`.error ()`), unreachable here because the bounds guards are correct. -/
def FrameBuffer.put_point (fb : FrameBuffer) (x y : Int) (color : Color) :
    Except Unit FrameBuffer :=
  if x < 0 ∨ x ≥ (fb.width : Int) then .ok fb
  else if y < 0 ∨ y ≥ (fb.height : Int) then .ok fb
  else if color.alpha = 0 then .ok fb
  else if color.alpha = 255 then
    let offset := (y * (fb.width : Int) * 3 + x * 3).toNat
    if offset + 2 < fb.pixels.length then
      .ok { fb with pixels :=
        ((fb.pixels.set offset color.r).set (offset + 1) color.g).set (offset + 2) color.b }
    else .error ()
  else
    let base_blend := 255 - color.alpha
    let offset := (y * (fb.width : Int) * 3 + x * 3).toNat
    match fb.pixels[offset]?, fb.pixels[offset + 1]?, fb.pixels[offset + 2]? with
    | some p0, some p1, some p2 =>
      let blend := fun (stored channel : Nat) =>
        (stored * base_blend + channel * color.alpha) / 255
      .ok { fb with pixels :=
        ((fb.pixels.set offset (blend p0 color.r)).set (offset + 1)
          (blend p1 color.g)).set (offset + 2) (blend p2 color.b) }
    | _, _, _ => .error ()

/-- The bytes of a string, for the ASCII PPM header. -/
def strBytes (s : String) : List Nat :=
  s.toList.map Char.toNat

/-- `FrameBuffer::write`: the byte sequence handed to the output stream —
the ASCII header `P6\n{width} {height}\n255\n` followed by the raw pixel
bytes (each chunk is flushed through `write_all`, modelled separately). -/
def FrameBuffer.writeBytes (fb : FrameBuffer) : List Nat :=
  strBytes ("P6\n" ++ toString fb.width ++ " " ++ toString fb.height ++ "\n255\n")
    ++ fb.pixels

/-- `StencilBuffer`: a flat single-byte-per-cell buffer. -/
structure StencilBuffer where
  pixels : List Nat
  width : Nat
  height : Nat
deriving DecidableEq

/-- `StencilBuffer::new`: a `width*height`-byte buffer of zeros. -/
def StencilBuffer.new (width height : Nat) : StencilBuffer :=
  { pixels := List.replicate (width * height) 0, width := width, height := height }

/-- `StencilBuffer::get_point`, exactly as written: the second guard tests
`x >= self.height` (not `y`); out-of-range indexing panics (`.error ()`). -/
def StencilBuffer.get_point (sb : StencilBuffer) (x y : Int) : Except Unit (Option Nat) :=
  if x < 0 ∨ x ≥ (sb.width : Int) then .ok none
  else if y < 0 ∨ x ≥ (sb.height : Int) then .ok none
  else
    let offset := (y * (sb.width : Int) + x).toNat
    match sb.pixels[offset]? with
    | some v => .ok (some v)
    | none => .error ()

/-- `StencilBuffer::put_point`, exactly as written: the second guard tests
`x >= self.height` (not `y`); an in-guard but out-of-range write panics. -/
def StencilBuffer.put_point (sb : StencilBuffer) (x y : Int) (color : Nat) :
    Except Unit StencilBuffer :=
  if x < 0 ∨ x ≥ (sb.width : Int) then .ok sb
  else if y < 0 ∨ x ≥ (sb.height : Int) then .ok sb
  else
    let offset := (y * (sb.width : Int) + x).toNat
    if offset < sb.pixels.length then
      .ok { sb with pixels := sb.pixels.set offset color }
    else .error ()

/-- Outcome of `write_all` against a modelled stream. -/
inductive WriteOutcome
  | ok
  | interrupted
  | streamError
  | outOfResponses
deriving DecidableEq

/-- `write_all`'s loop.  The underlying stream is a list of responses, one
per `output.write` call: `.ok n` means the call accepted `n` bytes, `.error ()`
means it failed (propagated by `?`).  A zero-byte success yields
`.interrupted` (`io::ErrorKind::Interrupted`); running out of modelled
responses while bytes remain is `.outOfResponses`. -/
def write_all_go : List (Except Unit Nat) → Nat → Nat → WriteOutcome
  | responses, offset, len =>
    if offset < len then
      match responses with
      | [] => .outOfResponses
      | .error _ :: _ => .streamError
      | .ok size :: rest =>
        if size = 0 then .interrupted
        else write_all_go rest (offset + size) len
    else .ok

/-- `write_all`: flush a `len`-byte buffer through the modelled stream. -/
def write_all (responses : List (Except Unit Nat)) (len : Nat) : WriteOutcome :=
  write_all_go responses 0 len

/-- The `GraphicBuffer` trait: `width`, `height`, `get_point`, `put_point`.
`put_point` returns `Except` because a concrete buffer's write can panic. -/
structure BufferOps (B : Type) (T : Type) where
  width : B → Nat
  height : B → Nat
  get_point : B → Int → Int → Except Unit (Option T)
  put_point : B → Int → Int → T → Except Unit B

/-- The `GraphicBuffer<Color>` implementation for `FrameBuffer`. -/
def frameBufferOps : BufferOps FrameBuffer Color where
  width := FrameBuffer.width
  height := FrameBuffer.height
  get_point := FrameBuffer.get_point
  put_point := FrameBuffer.put_point

/-- The `GraphicBuffer<u8>` implementation for `StencilBuffer`. -/
def stencilBufferOps : BufferOps StencilBuffer Nat where
  width := StencilBuffer.width
  height := StencilBuffer.height
  get_point := StencilBuffer.get_point
  put_point := StencilBuffer.put_point

/-- An instrumentation instance: the "buffer" is the list of plotted points,
`put_point` appends and `get_point` always reads absent.  Used to observe
exactly which pixels a drawing primitive plots. -/
def traceOps : BufferOps (List (Int × Int)) Unit where
  width := fun _ => 0
  height := fun _ => 0
  get_point := fun _ _ _ => .ok none
  put_point := fun l x y _ => .ok (l ++ [(x, y)])

/-- `Canvas`: a buffer plus the current fill and stroke values. -/
structure Canvas (B : Type) (T : Type) where
  buffer : B
  fill : T
  stroke : T
deriving DecidableEq

/-- `Canvas::get_point`. -/
def Canvas.get_point (ops : BufferOps B T) (c : Canvas B T) (x y : Int) :
    Except Unit (Option T) :=
  ops.get_point c.buffer x y

/-- `Canvas::stroke_point`: plot one pixel with the current stroke value. -/
def Canvas.stroke_point (ops : BufferOps B T) (c : Canvas B T) (x y : Int) :
    Except Unit (Canvas B T) :=
  (ops.put_point c.buffer x y c.stroke).map fun b => { c with buffer := b }

/-- `Canvas::fill_point`: plot one pixel with the current fill value. -/
def Canvas.fill_point (ops : BufferOps B T) (c : Canvas B T) (x y : Int) :
    Except Unit (Canvas B T) :=
  (ops.put_point c.buffer x y c.fill).map fun b => { c with buffer := b }

/-- The Rust iterator `lo..hi` over `i64`: `lo, lo+1, …, hi-1`. -/
def intRange (lo hi : Int) : List Int :=
  (List.range (hi - lo).toNat).map fun i => lo + (i : Int)

/-- `Canvas::mask`: with matching dimensions, combine every in-bounds pixel
of `self` with the corresponding pixel of `other` through `func`; with
mismatched dimensions return immediately. -/
def Canvas.mask (ops : BufferOps B T) (mops : BufferOps MB MT)
    (c : Canvas B T) (other : Canvas MB MT) (func : T → MT → T) :
    Except Unit (Canvas B T) :=
  if ops.width c.buffer ≠ mops.width other.buffer then .ok c
  else if ops.height c.buffer ≠ mops.height other.buffer then .ok c
  else
    (List.range (ops.height c.buffer)).foldlM (fun c py =>
      (List.range (ops.width c.buffer)).foldlM (fun c px => do
        match ← ops.get_point c.buffer (px : Int) (py : Int) with
        | none => pure c
        | some src =>
          match ← mops.get_point other.buffer (px : Int) (py : Int) with
          | none => pure c
          | some msk => do
            let b ← ops.put_point c.buffer (px : Int) (py : Int) (func src msk)
            pure { c with buffer := b }) c) c

/-- `Canvas::stroke_rect`, exactly as written in the source: the bottom-row
test reads `y == (y + height) - 1` (comparing `y` to itself, not `py`), and
every `stroke_point` call passes `(py, …)` as the x coordinate. -/
def Canvas.stroke_rect (ops : BufferOps B T) (c : Canvas B T)
    (x y width height : Int) : Except Unit (Canvas B T) :=
  (intRange y (y + height)).foldlM (fun c py =>
    if py = y ∨ y = (y + height) - 1 then
      (intRange x (x + width)).foldlM (fun c px => Canvas.stroke_point ops c py px) c
    else do
      let c ← Canvas.stroke_point ops c py x
      Canvas.stroke_point ops c py (x + width - 1)) c

/-- The incremental-error loop of `Canvas::stroke_line` (the Rust `loop`),
with a fuel bound: `none` means the fuel ran out before the loop broke. -/
def strokeLineLoop (ops : BufferOps B T) (x2 y2 deltax deltay stepx stepy : Int) :
    Nat → Int → Int → Int → Canvas B T → Option (Except Unit (Canvas B T))
  | 0, _, _, _, _ => none
  | fuel + 1, px, py, error, c =>
    match Canvas.stroke_point ops c px py with
    | .error e => some (.error e)
    | .ok c =>
      let next_error := 2 * error
      if next_error ≥ deltay ∧ px = x2 then some (.ok c)
      else
        let s := if next_error ≥ deltay then (px + stepx, error + deltay) else (px, error)
        if next_error ≤ deltax ∧ py = y2 then some (.ok c)
        else
          let s2 := if next_error ≤ deltax then (py + stepy, s.2 + deltax) else (py, s.2)
          strokeLineLoop ops x2 y2 deltax deltay stepx stepy fuel s.1 s2.1 s2.2 c

/-- `Canvas::stroke_line`: vertical and horizontal lines iterate the Rust
half-open range `y..y2` (resp. `x..x2`) directly; other lines run the
incremental-error loop. -/
def Canvas.stroke_line (ops : BufferOps B T) (fuel : Nat) (c : Canvas B T)
    (x y x2 y2 : Int) : Option (Except Unit (Canvas B T)) :=
  if x = x2 then
    some ((intRange y y2).foldlM (fun c py => Canvas.stroke_point ops c x py) c)
  else if y = y2 then
    some ((intRange x x2).foldlM (fun c px => Canvas.stroke_point ops c px y) c)
  else
    let deltax := |x2 - x|
    let stepx := (x2 - x).sign
    let deltay := -|y2 - y|
    let stepy := (y2 - y).sign
    strokeLineLoop ops x2 y2 deltax deltay stepx stepy fuel x y (deltax + deltay) c

/-- The midpoint loop of `Canvas::stroke_circle` (`while relx <= 0`), with a
fuel bound: `none` means the fuel ran out before the loop exited. -/
def strokeCircleLoop (ops : BufferOps B T) (x y : Int) :
    Nat → Int → Int → Int → Canvas B T → Option (Except Unit (Canvas B T))
  | 0, _, _, _, _ => none
  | fuel + 1, relx, rely, error, c =>
    if relx ≤ 0 then
      match (do
        let c ← Canvas.stroke_point ops c (x + relx) (y + rely)
        let c ← Canvas.stroke_point ops c (x - relx) (y + rely)
        let c ← Canvas.stroke_point ops c (x + relx) (y - rely)
        Canvas.stroke_point ops c (x - relx) (y - rely) : Except Unit (Canvas B T)) with
      | .error e => some (.error e)
      | .ok c =>
        let next_error := 2 * error
        let s := if next_error ≥ 2 * relx + 1 then (relx + 1, error + 2 * (relx + 1) + 1)
          else (relx, error)
        let s2 := if next_error ≤ 2 * rely + 1 then (rely + 1, s.2 + 2 * (rely + 1) + 1)
          else (rely, s.2)
        strokeCircleLoop ops x y fuel s.1 s2.1 s2.2 c
    else some (.ok c)

/-- `Canvas::stroke_circle`: start at `relx = -r`, `rely = 0`,
`error = -2r + 2` and run the midpoint loop. -/
def Canvas.stroke_circle (ops : BufferOps B T) (fuel : Nat) (c : Canvas B T)
    (x y r : Int) : Option (Except Unit (Canvas B T)) :=
  strokeCircleLoop ops x y fuel (-r) 0 (-2 * r + 2) c

/-! ## Theorems -/

/-- Helper: an all-positive response list whose total covers the remaining
bytes drives `write_all_go` to completion. -/
theorem write_all_go_ok (sizes : List Nat) (offset len : Nat)
    (hpos : ∀ s ∈ sizes, 0 < s) (hsum : len ≤ offset + sizes.sum) :
    write_all_go (sizes.map Except.ok) offset len = WriteOutcome.ok := by
  induction sizes generalizing offset with
  | nil =>
    unfold write_all_go
    simp only [List.sum_nil, Nat.add_zero] at hsum
    simp [Nat.not_lt.mpr hsum]
  | cons s rest ih =>
    unfold write_all_go
    by_cases hlt : offset < len
    · have hs : s ≠ 0 := Nat.pos_iff_ne_zero.mp (hpos s (List.mem_cons_self s rest))
      simp only [hlt, if_true, List.map_cons, hs, if_false]
      exact ih (offset + s) (fun t ht => hpos t (List.mem_cons_of_mem s ht))
        (by simp only [List.sum_cons] at hsum; omega)
    · simp [hlt]

/-- Helper: a zero-byte success reached while bytes remain yields
`interrupted`. -/
theorem write_all_go_interrupted (sizes : List Nat) (post : List (Except Unit Nat))
    (offset len : Nat) (hpos : ∀ s ∈ sizes, 0 < s) (hlt : offset + sizes.sum < len) :
    write_all_go (sizes.map Except.ok ++ Except.ok 0 :: post) offset len =
      WriteOutcome.interrupted := by
  induction sizes generalizing offset with
  | nil =>
    unfold write_all_go
    simp only [List.sum_nil, Nat.add_zero] at hlt
    simp [hlt]
  | cons s rest ih =>
    unfold write_all_go
    have hoff : offset < len := by simp only [List.sum_cons] at hlt; omega
    have hs : s ≠ 0 := Nat.pos_iff_ne_zero.mp (hpos s (List.mem_cons_self s rest))
    simp only [hoff, if_true, List.map_cons, List.cons_append, hs, if_false]
    exact ih (offset + s) (fun t ht => hpos t (List.mem_cons_of_mem s ht))
      (by simp only [List.sum_cons] at hlt; omega)

/-- C6: when every underlying write accepts only part of the buffer but at
least one byte, `write_all` loops until everything is written and returns
success; a zero-byte write before the buffer is exhausted stops the loop
with the distinct `interrupted` outcome instead of looping forever. -/
theorem write_all_flushes_and_detects_closed_stream :
    (∀ (sizes : List Nat) (len : Nat), (∀ s ∈ sizes, 0 < s) → len ≤ sizes.sum →
      write_all (sizes.map Except.ok) len = WriteOutcome.ok) ∧
    (∀ (sizes : List Nat) (post : List (Except Unit Nat)) (len : Nat),
      (∀ s ∈ sizes, 0 < s) → sizes.sum < len →
      write_all (sizes.map Except.ok ++ Except.ok 0 :: post) len =
        WriteOutcome.interrupted) :=
  ⟨fun sizes len hpos hsum => write_all_go_ok sizes 0 len hpos (by simpa using hsum),
   fun sizes post len hpos hlt =>
     write_all_go_interrupted sizes post 0 len hpos (by simpa using hlt)⟩

/-- Witness for C6: a 4-byte buffer flushed as 2+3 bytes succeeds, and a
zero-byte write after 2 of 4 bytes is reported as interrupted. -/
theorem write_all_flushes_witness :
    write_all ([2, 3].map Except.ok) 4 = WriteOutcome.ok ∧
    write_all ([2].map Except.ok ++ Except.ok 0 :: [Except.error ()]) 4 =
      WriteOutcome.interrupted :=
  ⟨write_all_flushes_and_detects_closed_stream.1 [2, 3] 4 (by decide) (by decide),
   write_all_flushes_and_detects_closed_stream.2 [2] [Except.error ()] 4
     (by decide) (by decide)⟩

/-- C1: the claimed bounds behaviour of `get_point` fails.  The second guard
tests `x >= height` instead of `y >= height` in both buffers, so the
out-of-bounds read `(0,1)` on a 1×1 buffer panics (indexes past the pixel
vector) instead of returning absent, and the in-bounds read `(2,0)` on a
fresh 3×2 framebuffer returns absent instead of the stored black pixel. -/
theorem get_point_height_guard_is_broken :
    (FrameBuffer.new 1 1).get_point 0 1 = .error () ∧
    (StencilBuffer.new 1 1).get_point 0 1 = .error () ∧
    (FrameBuffer.new 3 2).get_point 2 0 = .ok none := by
  refine ⟨rfl, rfl, rfl⟩

/-- C2: the put-then-get round trip fails in bounds.  On a 3×2 framebuffer,
`put_point(2,0,c)` with `c.alpha = 255` stores the channels, but
`get_point(2,0)` then returns absent rather than `c`, because its height
guard tests `x >= height` (2 ≥ 2) instead of `y >= height`. -/
theorem put_then_get_inbounds_returns_none :
    ((FrameBuffer.new 3 2).put_point 2 0 (Color.rgba 9 8 7 255)).bind
      (fun fb => fb.get_point 2 0) = .ok none := by
  rfl

/-- Counterexample for C3: blending source channel 200 at alpha 128 over the
opaque destination (100,100,100,255) yields channel
`(100*(255-128) + 200*128)/255 = 38300/255 = 150`, not the claimed 149. -/
theorem blend_example_channel_ne_149 :
    ((Color.rgba 100 100 100 255).blend (Color.rgba 200 200 200 128)).r ≠ 149 := by
  decide

/-- C3 (amended): each channel of the blend equals
`(100*(255-128) + 200*128)/255` with truncating division, i.e. 150, and the
destination's alpha 255 is preserved. -/
theorem blend_example_channel_eq_150 :
    (Color.rgba 100 100 100 255).blend (Color.rgba 200 200 200 128) =
      Color.rgba 150 150 150 255 ∧
    (100 * (255 - 128) + 200 * 128) / 255 = 150 := by
  decide

/-- C4: `stroke_rect(0,0,4,2)` on a 4×4 stencil canvas with stroke 1 does not
produce the rectangle's border.  The resulting buffer strokes the pixels
(0,0),(1,0),(0,1),(0,2),(0,3),(1,3) — it writes (0,2),(0,3),(1,3) outside
the rectangle and leaves border pixels such as (2,0) untouched, because the
`stroke_point` arguments are transposed and the bottom-row test compares `y`
with itself. -/
theorem stroke_rect_writes_wrong_pixels :
    (Canvas.stroke_rect stencilBufferOps
        { buffer := StencilBuffer.new 4 4, fill := 0, stroke := 1 } 0 0 4 2).map
      (fun c => c.buffer.pixels) =
      .ok [1, 1, 0, 0, 1, 0, 0, 0, 1, 0, 0, 0, 1, 1, 0, 0] := by
  rfl

/-- C5: serializing a fresh 4×4 black framebuffer yields exactly the ASCII
header bytes `P6\n4 4\n255\n` followed by 48 zero bytes. -/
theorem write_ppm_4x4_black :
    (FrameBuffer.new 4 4).writeBytes =
      [80, 54, 10, 52, 32, 52, 10, 50, 53, 53, 10] ++ List.replicate 48 0 := by
  decide

/-- C9: `Canvas::mask` between canvases whose buffers disagree in width or in
height returns before touching anything, leaving the target canvas (hence
its buffer) unchanged. -/
theorem mask_dimension_mismatch_noop {B T MB MT : Type} (ops : BufferOps B T)
    (mops : BufferOps MB MT) (c : Canvas B T) (other : Canvas MB MT)
    (func : T → MT → T)
    (h : ops.width c.buffer ≠ mops.width other.buffer ∨
      ops.height c.buffer ≠ mops.height other.buffer) :
    Canvas.mask ops mops c other func = .ok c := by
  unfold Canvas.mask
  rcases h with h | h
  · simp [h]
  · by_cases hw : ops.width c.buffer ≠ mops.width other.buffer
    · simp [hw]
    · simp [hw, h]

/-- Witness for C9: masking a 5×5 framebuffer canvas with a 6×6 stencil
canvas leaves the framebuffer canvas bit-for-bit unchanged. -/
theorem mask_dimension_mismatch_witness :
    Canvas.mask frameBufferOps stencilBufferOps
      ⟨FrameBuffer.new 5 5, Color.rgb 0 0 0, Color.rgb 255 255 255⟩
      ⟨StencilBuffer.new 6 6, 0, 0⟩ (fun col _ => col) =
      .ok ⟨FrameBuffer.new 5 5, Color.rgb 0 0 0, Color.rgb 255 255 255⟩ :=
  mask_dimension_mismatch_noop frameBufferOps stencilBufferOps _ _ _
    (Or.inl (by decide))

/-- C10: any color successfully read back from a `FrameBuffer` has alpha 255:
`get_point` rebuilds the color with `Color::rgb`, which fixes alpha at 255,
so a written color's alpha is never stored or read back. -/
theorem get_point_alpha_always_255 (fb : FrameBuffer) (x y : Int) (c : Color)
    (h : fb.get_point x y = .ok (some c)) : c.alpha = 255 := by
  unfold FrameBuffer.get_point at h
  split at h
  · simp at h
  · split at h
    · simp at h
    · dsimp only [] at h
      split at h
      · rw [show c = Color.rgb _ _ _ from (Option.some.inj (Except.ok.inj h)).symm]
        rfl
      · simp at h

/-- Witness for C10: reading pixel (0,0) of a fresh 1×1 framebuffer yields a
color whose alpha is 255. -/
theorem get_point_alpha_witness : (Color.rgb 0 0 0).alpha = 255 :=
  get_point_alpha_always_255 (FrameBuffer.new 1 1) 0 0 (Color.rgb 0 0 0) rfl

/-- C7: `stroke_line(0,0,5,0)` takes the horizontal fast path and plots, on
any buffer, exactly the pixels (0,0), (1,0), (2,0), (3,0), (4,0) — every
plotted pixel has y = 0, but the Rust half-open range `x..x2` stops at 4,
so the endpoint x = 5 claimed by the spec is never written. -/
theorem stroke_line_horizontal_misses_endpoint {B T : Type} (ops : BufferOps B T)
    (c : Canvas B T) (fuel : Nat) :
    Canvas.stroke_line ops fuel c 0 0 5 0 =
      some (Canvas.stroke_point ops c 0 0 >>= fun c1 =>
        Canvas.stroke_point ops c1 1 0 >>= fun c2 =>
        Canvas.stroke_point ops c2 2 0 >>= fun c3 =>
        Canvas.stroke_point ops c3 3 0 >>= fun c4 =>
        Canvas.stroke_point ops c4 4 0) := by
  have hr : intRange 0 5 = [0, 1, 2, 3, 4] := rfl
  simp [Canvas.stroke_line, hr, List.foldlM]

/-- C8: `stroke_circle(x,y,0)` exits its midpoint loop after one iteration
(any fuel bound of at least 2 suffices, so the loop terminates), and that
iteration plots only the center pixel (x,y), four times. -/
theorem stroke_circle_radius_zero_plots_center_only {B T : Type}
    (ops : BufferOps B T) (c : Canvas B T) (x y : Int) (fuel : Nat)
    (h : 2 ≤ fuel) :
    Canvas.stroke_circle ops fuel c x y 0 =
      some (Canvas.stroke_point ops c x y >>= fun c1 =>
        Canvas.stroke_point ops c1 x y >>= fun c2 =>
        Canvas.stroke_point ops c2 x y >>= fun c3 =>
        Canvas.stroke_point ops c3 x y) := by
  obtain ⟨f, rfl⟩ : ∃ f, fuel = f + 2 := ⟨fuel - 2, by omega⟩
  show strokeCircleLoop ops x y (f + 1 + 1) (-0) 0 (-2 * 0 + 2) c = _
  rw [show (-0 : Int) = 0 from rfl, show (-2 * 0 + 2 : Int) = 2 from rfl]
  simp only [strokeCircleLoop, add_zero, sub_zero]
  cases hb : (Canvas.stroke_point ops c x y >>= fun c1 =>
      Canvas.stroke_point ops c1 x y >>= fun c2 =>
      Canvas.stroke_point ops c2 x y >>= fun c3 =>
      Canvas.stroke_point ops c3 x y) with
  | error e => simp [hb]
  | ok c2 => simp [hb, strokeCircleLoop]

/-- Witness for C8: with fuel 2, `stroke_circle(3,5,0)` on the tracing
instance terminates and its trace is the center pixel (3,5) four times. -/
theorem stroke_circle_radius_zero_witness :
    Canvas.stroke_circle traceOps 2 ⟨[], (), ()⟩ 3 5 0 =
      some (.ok ⟨[(3, 5), (3, 5), (3, 5), (3, 5)], (), ()⟩) :=
  (stroke_circle_radius_zero_plots_center_only traceOps ⟨[], (), ()⟩ 3 5 2
    (by decide)).trans (by decide)

end Generative
